import Mathlib

/-!
Shallow embedding of the WindowsAppSDK push-notifications console sample
(Samples/Notifications/Push/cpp-console-packaged/cpp-console.cpp).

The program is modelled as a trace generator: every observable step of the
program (platform API calls, console output, console input) is an `Act`,
and `mainTrace` maps an abstract OS environment (activation kind, activator
support, the behaviour of the asynchronous channel request, and the delivered
push payload) to the list of actions the program performs, in order.
-/

/-- The `PushNotificationChannelStatus` enumeration of the platform API, as
used by the sample: progress statuses and completion statuses. -/
inductive PushNotificationChannelStatus where
  | inProgress
  | inProgressRetry
  | completedSuccess
  | completedFailure

deriving instance DecidableEq, Repr for PushNotificationChannelStatus

/-- A push channel: the sample reads its `Uri()` and `ExpirationTime()`.
The expiration time is modelled as an abstract timestamp. -/
structure PushNotificationChannel where
  uri : String
  expirationTime : Nat

deriving instance DecidableEq, Repr for PushNotificationChannel

/-- The argument of a progress callback
(`PushNotificationCreateChannelStatus`): a status, the extended error code
and the retry count. -/
structure PushNotificationCreateChannelStatus where
  status : PushNotificationChannelStatus
  extendedError : Int
  retryCount : Nat

deriving instance DecidableEq, Repr for PushNotificationCreateChannelStatus

/-- The completion result of `CreateChannelAsync`: a status, the channel
(meaningful when the status is `completedSuccess`) and the extended error. -/
structure PushNotificationCreateChannelResult where
  status : PushNotificationChannelStatus
  channel : PushNotificationChannel
  extendedError : Int

deriving instance DecidableEq, Repr for PushNotificationCreateChannelResult

/-- The WinRT `AsyncStatus` values observed through `wait_for`. -/
inductive AsyncStatus where
  | started
  | completed
  | canceled
  | error

deriving instance DecidableEq, Repr for AsyncStatus

/-- The activator flag set passed to `RegisterActivator` and
`UnregisterActivator` (`PushNotificationRegistrationActivators`). -/
structure PushNotificationRegistrationActivators where
  pushTrigger : Bool
  comActivator : Bool

deriving instance DecidableEq, Repr for PushNotificationRegistrationActivators

/-- The activation kind read from the activation record.  The sample
distinguishes `Launch` and `Push`; every other member of the C++
`ExtendedActivationKind` enumeration is modelled by `other k`. -/
inductive ExtendedActivationKind where
  | launch
  | push
  | other (k : Nat)

deriving instance DecidableEq, Repr for ExtendedActivationKind

/-- One observable step of the program: platform API calls, console output
lines, and console input reads, in program order. -/
inductive Act where
  | registerActivator (acts : PushNotificationRegistrationActivators)
  | unregisterActivator (acts : PushNotificationRegistrationActivators)
  | createChannel
  | cancelChannelOperation
  | getChannelResults
  | subscribeForeground (channel : PushNotificationChannel)
  | logInProgress
  | logRetry (retryCount : Nat) (extendedError : Int)
  | logChannelUri (uri : String)
  | logChannelExpiry (t : Nat)
  | logCriticalFailure (extendedError : Int)
  | logOtherFailure (extendedError : Int)
  | logChannelError
  | logBackgroundContent (s : String)
  | logPressEnter
  | logUnexpectedActivation
  | getDeferral
  | readPayload (p : List Nat)
  | completeDeferral
  | readLine

deriving instance DecidableEq, Repr for Act

/-- Models `std::string payloadString(payload.begin(), payload.end())`: the raw
byte payload interpreted as text. -/
def payloadToString (p : List Nat) : String :=
  String.mk (p.map Char.ofNat)

/-- Predicate `Act.isRegister a` holds exactly when `a` is a `RegisterActivator`
call. -/
def Act.isRegister : Act → Bool
  | .registerActivator _ => true
  | _ => false

/-- Predicate `Act.isUnregister a` holds exactly when `a` is an
`UnregisterActivator` call. -/
def Act.isUnregister : Act → Bool
  | .unregisterActivator _ => true
  | _ => false

/-- Predicate `Act.isCreateChannel a` holds exactly when `a` issues the
asynchronous channel request (`CreateChannelAsync`). -/
def Act.isCreateChannel : Act → Bool
  | .createChannel => true
  | _ => false

/-- Predicate `Act.isSubscribe a` holds exactly when `a` subscribes the foreground
`PushReceived` handler on some channel. -/
def Act.isSubscribe : Act → Bool
  | .subscribeForeground _ => true
  | _ => false

/-- Predicate `Act.isCompleteDeferral a` holds exactly when `a` is the
`deferral.Complete()` call. -/
def Act.isCompleteDeferral : Act → Bool
  | .completeDeferral => true
  | _ => false

/-- Predicate `Act.isInProgressLog a` holds exactly when `a` is the informational
in-progress console message. -/
def Act.isInProgressLog : Act → Bool
  | .logInProgress => true
  | _ => false

/-- Predicate `Act.isRetryLog a` holds exactly when `a` is the back-off retry
warning log. -/
def Act.isRetryLog : Act → Bool
  | .logRetry _ _ => true
  | _ => false

/-- Predicate `Act.isErrorLog a` holds exactly when `a` is one of the two failure
logs emitted on a non-success completion of the channel request. -/
def Act.isErrorLog : Act → Bool
  | .logCriticalFailure _ => true
  | .logOtherFailure _ => true
  | _ => false

/-- Predicate `Act.isBlocking a` holds exactly when `a` blocks the thread waiting
on console input (`std::cin.ignore()`). -/
def Act.isBlocking : Act → Bool
  | .readLine => true
  | _ => false

/-- The body of the `channelOperation.Progress` lambda: an informational
message on `InProgress`, a retry warning (with retry count and extended
error) on `InProgressRetry`, nothing otherwise. -/
def progressHandler (args : PushNotificationCreateChannelStatus) : List Act :=
  if args.status = PushNotificationChannelStatus.inProgress then
    [Act.logInProgress]
  else if args.status = PushNotificationChannelStatus.inProgressRetry then
    [Act.logRetry args.retryCount args.extendedError]
  else
    []

/-- The log actions produced by the progress handler over a sequence of
progress callbacks, in delivery order. -/
def progressLogs : List PushNotificationCreateChannelStatus → List Act
  | [] => []
  | s :: rest => progressHandler s ++ progressLogs rest

/-- The part of `RequestChannelAsync` that runs after `co_await
channelOperation`: on `CompletedSuccess` log the channel URI and expiry and
return the channel; on `CompletedFailure` log the critical error and return
null; otherwise log the other failure and return null. -/
def completionActs (result : PushNotificationCreateChannelResult) :
    List Act × Option PushNotificationChannel :=
  if result.status = PushNotificationChannelStatus.completedSuccess then
    ([Act.logChannelUri result.channel.uri,
      Act.logChannelExpiry result.channel.expirationTime],
     some result.channel)
  else if result.status = PushNotificationChannelStatus.completedFailure then
    ([Act.logCriticalFailure result.extendedError], none)
  else
    ([Act.logOtherFailure result.extendedError], none)

/-- The full run of the `RequestChannelAsync` coroutine when awaited to
completion: issue `CreateChannelAsync`, log every progress callback, then
run the completion branch. -/
def RequestChannelAsync (progress : List PushNotificationCreateChannelStatus)
    (result : PushNotificationCreateChannelResult) :
    List Act × Option PushNotificationChannel :=
  (Act.createChannel :: (progressLogs progress ++ (completionActs result).1),
   (completionActs result).2)

/-- The environment of one channel request: how many seconds until the
asynchronous operation reaches its terminal status, that terminal status,
the progress callbacks delivered while it is pending, and its completion
result. -/
structure ChannelRequestEnv where
  completesAfter : Nat
  terminalStatus : AsyncStatus
  progress : List PushNotificationCreateChannelStatus
  result : PushNotificationCreateChannelResult

deriving instance DecidableEq, Repr for ChannelRequestEnv

/-- Models `task.wait_for(std::chrono::seconds(timeoutSeconds))`: the terminal
status when the operation finishes within the timeout, `started`
otherwise. -/
def wait_for (env : ChannelRequestEnv) (timeoutSeconds : Nat) : AsyncStatus :=
  if env.completesAfter ≤ timeoutSeconds then env.terminalStatus
  else AsyncStatus.started

/-- Model of `RequestChannel`: start `RequestChannelAsync` and wait up to 300
seconds.  If the wait does not report `Completed`, cancel the operation and
return null; otherwise take `GetResults` and return it. -/
def RequestChannel (env : ChannelRequestEnv) :
    List Act × Option PushNotificationChannel :=
  if wait_for env 300 = AsyncStatus.completed then
    ((RequestChannelAsync env.progress env.result).1 ++ [Act.getChannelResults],
     (RequestChannelAsync env.progress env.result).2)
  else
    (Act.createChannel :: (progressLogs env.progress ++ [Act.cancelChannelOperation]),
     none)

/-- One step of the `PushReceived` foreground handler lambda. -/
inductive HandlerStep where
  | getPayload (p : List Nat)
  | logContent (s : String)
  | setHandled (b : Bool)

deriving instance DecidableEq, Repr for HandlerStep

/-- The event args delivered to the foreground handler: the raw payload and
the `Handled` flag. -/
structure PushNotificationReceivedEventArgs where
  payload : List Nat
  handled : Bool

deriving instance DecidableEq, Repr for PushNotificationReceivedEventArgs

/-- The `PushReceived` lambda installed by `SubscribeForegroundEventHandler`:
read `args.Payload()`, decode and print it, then set `args.Handled(true)`.
Returns its step trace and the updated event args. -/
def foregroundHandler (args : PushNotificationReceivedEventArgs) :
    List HandlerStep × PushNotificationReceivedEventArgs :=
  ([HandlerStep.getPayload args.payload,
    HandlerStep.logContent (payloadToString args.payload),
    HandlerStep.setHandled true],
   { args with handled := true })

/-- Predicate `HandlerStep.isSetHandled s` holds exactly when `s` writes the
`Handled` flag. -/
def HandlerStep.isSetHandled : HandlerStep → Bool
  | .setHandled _ => true
  | _ => false

/-- The whole-process environment: the two `IsActivatorSupported` answers,
the activation kind, the background push payload, and the channel-request
environment used on the launch path. -/
structure Env where
  activatorSupportedAll : Bool
  activatorSupportedCom : Bool
  kind : ExtendedActivationKind
  pushPayload : List Nat
  creq : ChannelRequestEnv

deriving instance DecidableEq, Repr for Env

/-- The actions before the switch: register the activator (PushTrigger and
ComActivator together) when the OS supports it, otherwise nothing. -/
def regActs (env : Env) : List Act :=
  if env.activatorSupportedAll then
    [Act.registerActivator ⟨true, true⟩]
  else
    []

/-- The actions after the switch: unregister only the ComActivator when the
OS supports it, otherwise nothing.  The PushTrigger registration is never
unregistered. -/
def unregActs (env : Env) : List Act :=
  if env.activatorSupportedCom then
    [Act.unregisterActivator ⟨false, true⟩]
  else
    []

/-- The `ExtendedActivationKind::Launch` case of the switch: request a
channel; on success subscribe the foreground handler, otherwise print the
error message; then print the exit prompt and block on a console read. -/
def launchBranch (creq : ChannelRequestEnv) : List Act :=
  (RequestChannel creq).1 ++
    (match (RequestChannel creq).2 with
      | some channel => [Act.subscribeForeground channel]
      | none => [Act.logChannelError]) ++
    [Act.logPressEnter, Act.readLine]

/-- The `ExtendedActivationKind::Push` case of the switch: get the deferral,
read the payload, decode and print it, print the exit prompt, complete the
deferral, then block on a console read. -/
def pushBranch (payload : List Nat) : List Act :=
  [Act.getDeferral,
   Act.readPayload payload,
   Act.logBackgroundContent (payloadToString payload),
   Act.logPressEnter,
   Act.completeDeferral,
   Act.readLine]

/-- The `default` case of the switch: print the unexpected-activation
message and the exit prompt, then block on a console read. -/
def otherBranch : List Act :=
  [Act.logUnexpectedActivation, Act.logPressEnter, Act.readLine]

/-- The switch on the activation kind. -/
def branchTrace (env : Env) : List Act :=
  match env.kind with
  | ExtendedActivationKind.launch => launchBranch env.creq
  | ExtendedActivationKind.push => pushBranch env.pushPayload
  | ExtendedActivationKind.other _ => otherBranch

/-- The action trace of `main`: conditional registration, then the
activation-kind branch, then conditional unregistration. -/
def mainTrace (env : Env) : List Act :=
  regActs env ++ branchTrace env ++ unregActs env

/-- The activator registration state: which activators are currently
registered with the OS. -/
structure RegState where
  pushTrigger : Bool
  comActivator : Bool

deriving instance DecidableEq, Repr for RegState

/-- How one action changes the activator registration state: register adds
the named activators, unregister removes them, everything else leaves the
state unchanged. -/
def stepReg (s : RegState) (a : Act) : RegState :=
  match a with
  | Act.registerActivator r =>
      ⟨s.pushTrigger || r.pushTrigger, s.comActivator || r.comActivator⟩
  | Act.unregisterActivator r =>
      ⟨s.pushTrigger && !r.pushTrigger, s.comActivator && !r.comActivator⟩
  | _ => s

/-- The activator registration state after a trace, starting from nothing
registered. -/
def registeredAfter (tr : List Act) : RegState :=
  tr.foldl stepReg ⟨false, false⟩

/-- A concrete channel used to instantiate theorems. -/
def channelW : PushNotificationChannel :=
  { uri := "https-wns-example-channel-1", expirationTime := 1700000000 }

/-- A channel request that succeeds after 5 seconds with one informational
progress callback. -/
def creqSuccessW : ChannelRequestEnv :=
  { completesAfter := 5, terminalStatus := AsyncStatus.completed,
    progress := [{ status := PushNotificationChannelStatus.inProgress,
                   extendedError := 0, retryCount := 0 }],
    result := { status := PushNotificationChannelStatus.completedSuccess,
                channel := channelW, extendedError := 0 } }

/-- A channel request still pending when the 300-second timeout expires. -/
def creqTimeoutW : ChannelRequestEnv :=
  { completesAfter := 400, terminalStatus := AsyncStatus.completed,
    progress := [],
    result := { status := PushNotificationChannelStatus.completedSuccess,
                channel := channelW, extendedError := 0 } }

/-- A channel request whose asynchronous operation ends in the `Error`
state after 5 seconds, well within the timeout window. -/
def creqErrorW : ChannelRequestEnv :=
  { completesAfter := 5, terminalStatus := AsyncStatus.error,
    progress := [],
    result := { status := PushNotificationChannelStatus.completedFailure,
                channel := channelW, extendedError := -1 } }

/-- A channel request that completes with `CompletedFailure` after 5
seconds. -/
def creqFailureW : ChannelRequestEnv :=
  { completesAfter := 5, terminalStatus := AsyncStatus.completed,
    progress := [],
    result := { status := PushNotificationChannelStatus.completedFailure,
                channel := channelW, extendedError := -2147014848 } }

/-- A concrete background (push) activation environment. -/
def envPushW : Env :=
  { activatorSupportedAll := true, activatorSupportedCom := true,
    kind := ExtendedActivationKind.push,
    pushPayload := [104, 105],
    creq := creqSuccessW }

/-- A concrete normal-launch environment with a successful negotiation. -/
def envLaunchSuccessW : Env :=
  { activatorSupportedAll := true, activatorSupportedCom := true,
    kind := ExtendedActivationKind.launch,
    pushPayload := [],
    creq := creqSuccessW }

/-- A concrete normal-launch environment whose negotiation times out. -/
def envLaunchTimeoutW : Env :=
  { activatorSupportedAll := true, activatorSupportedCom := true,
    kind := ExtendedActivationKind.launch,
    pushPayload := [],
    creq := creqTimeoutW }

/-- A concrete normal-launch environment whose negotiation fails. -/
def envLaunchFailureW : Env :=
  { activatorSupportedAll := true, activatorSupportedCom := true,
    kind := ExtendedActivationKind.launch,
    pushPayload := [],
    creq := creqFailureW }

/-- A concrete environment with an activation kind that is neither Launch
nor Push. -/
def envOtherW : Env :=
  { activatorSupportedAll := true, activatorSupportedCom := true,
    kind := ExtendedActivationKind.other 3,
    pushPayload := [],
    creq := creqSuccessW }

/-- Every action emitted by the progress handler is one of the two progress
log messages. -/
theorem mem_progressLogs (l : List PushNotificationCreateChannelStatus)
    (a : Act) (h : a ∈ progressLogs l) :
    a = Act.logInProgress ∨ ∃ n e, a = Act.logRetry n e := by
  induction l with
  | nil => cases h
  | cons s t ih =>
    rw [progressLogs, List.mem_append] at h
    rcases h with h | h
    · by_cases h1 : s.status = PushNotificationChannelStatus.inProgress
      · simp [progressHandler, h1] at h
        exact Or.inl h
      · by_cases h2 : s.status = PushNotificationChannelStatus.inProgressRetry
        · simp [progressHandler, h1, h2] at h
          exact Or.inr ⟨s.retryCount, s.extendedError, h⟩
        · simp [progressHandler, h1, h2] at h
    · exact ih h

/-- A filter that rejects both progress log messages yields nothing on the
progress handler output. -/
theorem progressLogs_filter_eq_nil (f : Act → Bool)
    (h1 : f Act.logInProgress = false)
    (h2 : ∀ n e, f (Act.logRetry n e) = false)
    (l : List PushNotificationCreateChannelStatus) :
    (progressLogs l).filter f = [] := by
  refine List.filter_eq_nil_iff.mpr ?_
  intro a ha
  rcases mem_progressLogs l a ha with h | ⟨n, e, h⟩ <;> subst h <;> simp [h1, h2]

/-- The action `GetResults` is never called from inside the progress handler. -/
theorem getChannelResults_not_mem_progressLogs
    (l : List PushNotificationCreateChannelStatus) :
    Act.getChannelResults ∉ progressLogs l := by
  intro h
  rcases mem_progressLogs l _ h with h | ⟨n, e, h⟩ <;> cases h

/-- A trace that contains no register and no unregister action leaves the
activator registration state unchanged. -/
theorem foldl_stepReg_id (l : List Act) :
    ∀ s : RegState,
      (∀ a ∈ l, Act.isRegister a = false ∧ Act.isUnregister a = false) →
      l.foldl stepReg s = s := by
  induction l with
  | nil => intro s _; rfl
  | cons a t ih =>
    intro s h
    have ha := h a (by simp)
    have ht : ∀ x ∈ t, Act.isRegister x = false ∧ Act.isUnregister x = false :=
      fun x hx => h x (by simp [hx])
    have hstep : stepReg s a = s := by
      cases a <;> first
        | rfl
        | simp [Act.isRegister, Act.isUnregister] at ha
    rw [List.foldl_cons, hstep, ih s ht]

/-- A filter that rejects every action the launch branch can emit yields
nothing on the launch branch. -/
theorem launchBranch_filter_eq_nil (f : Act → Bool) (creq : ChannelRequestEnv)
    (hcc : f Act.createChannel = false)
    (hip : f Act.logInProgress = false)
    (hrt : ∀ n e, f (Act.logRetry n e) = false)
    (hu : ∀ u, f (Act.logChannelUri u) = false)
    (he : ∀ t, f (Act.logChannelExpiry t) = false)
    (hcf : ∀ e, f (Act.logCriticalFailure e) = false)
    (hof : ∀ e, f (Act.logOtherFailure e) = false)
    (hgr : f Act.getChannelResults = false)
    (hca : f Act.cancelChannelOperation = false)
    (hs : ∀ c, f (Act.subscribeForeground c) = false)
    (hce : f Act.logChannelError = false)
    (hpe : f Act.logPressEnter = false)
    (hrl : f Act.readLine = false) :
    (launchBranch creq).filter f = [] := by
  have hp := progressLogs_filter_eq_nil f hip hrt creq.progress
  unfold launchBranch RequestChannel RequestChannelAsync completionActs
  by_cases hw : wait_for creq 300 = AsyncStatus.completed <;>
    by_cases h1 : creq.result.status = PushNotificationChannelStatus.completedSuccess <;>
      by_cases h2 : creq.result.status = PushNotificationChannelStatus.completedFailure <;>
        simp [hw, h1, h2, List.filter_append, hp, hcc, hu, he, hcf, hof,
              hgr, hca, hs, hce, hpe, hrl]

/-- The launch branch issues the asynchronous channel request exactly
once. -/
theorem launchBranch_filter_isCreateChannel (creq : ChannelRequestEnv) :
    (launchBranch creq).filter Act.isCreateChannel = [Act.createChannel] := by
  have hp := progressLogs_filter_eq_nil Act.isCreateChannel rfl
    (fun n e => rfl) creq.progress
  unfold launchBranch RequestChannel RequestChannelAsync completionActs
  by_cases hw : wait_for creq 300 = AsyncStatus.completed <;>
    by_cases h1 : creq.result.status = PushNotificationChannelStatus.completedSuccess <;>
      by_cases h2 : creq.result.status = PushNotificationChannelStatus.completedFailure <;>
        simp [hw, h1, h2, List.filter_append, hp, Act.isCreateChannel]

/-- When the wait does not report completion, the launch branch subscribes
no foreground handler. -/
theorem launchBranch_filter_isSubscribe_of_not_completed
    (creq : ChannelRequestEnv) (hw : wait_for creq 300 ≠ AsyncStatus.completed) :
    (launchBranch creq).filter Act.isSubscribe = [] := by
  have hp := progressLogs_filter_eq_nil Act.isSubscribe rfl
    (fun n e => rfl) creq.progress
  unfold launchBranch RequestChannel
  simp [hw, List.filter_append, hp, Act.isSubscribe]

/-- When the wait reports completion and the result status is
`CompletedSuccess`, the launch branch subscribes the foreground handler
exactly once, on the channel carried by the result. -/
theorem launchBranch_filter_isSubscribe_of_success
    (creq : ChannelRequestEnv) (hw : wait_for creq 300 = AsyncStatus.completed)
    (h1 : creq.result.status = PushNotificationChannelStatus.completedSuccess) :
    (launchBranch creq).filter Act.isSubscribe = [Act.subscribeForeground creq.result.channel] := by
  have hp := progressLogs_filter_eq_nil Act.isSubscribe rfl
    (fun n e => rfl) creq.progress
  unfold launchBranch RequestChannel RequestChannelAsync completionActs
  simp [hw, h1, List.filter_append, hp, Act.isSubscribe]

/-- No branch of the activation switch ever calls `RegisterActivator`. -/
theorem branchTrace_filter_isRegister (env : Env) :
    (branchTrace env).filter Act.isRegister = [] := by
  cases hk : env.kind with
  | launch =>
      rw [branchTrace, hk]
      exact launchBranch_filter_eq_nil Act.isRegister env.creq rfl rfl
        (fun n e => rfl) (fun u => rfl) (fun t => rfl) (fun e => rfl)
        (fun e => rfl) rfl rfl (fun c => rfl) rfl rfl rfl
  | push => rw [branchTrace, hk]; simp [pushBranch, Act.isRegister]
  | other k => rw [branchTrace, hk]; simp [otherBranch, Act.isRegister]

/-- No branch of the activation switch ever calls `UnregisterActivator`. -/
theorem branchTrace_filter_isUnregister (env : Env) :
    (branchTrace env).filter Act.isUnregister = [] := by
  cases hk : env.kind with
  | launch =>
      rw [branchTrace, hk]
      exact launchBranch_filter_eq_nil Act.isUnregister env.creq rfl rfl
        (fun n e => rfl) (fun u => rfl) (fun t => rfl) (fun e => rfl)
        (fun e => rfl) rfl rfl (fun c => rfl) rfl rfl rfl
  | push => rw [branchTrace, hk]; simp [pushBranch, Act.isUnregister]
  | other k => rw [branchTrace, hk]; simp [otherBranch, Act.isUnregister]

/-- Claim C1: in the background-triggered (Push) activation path, the
deferral is acquired from the activation record before the payload is read,
and is released exactly once, only after the payload has been fully read
and processed: the whole trace contains exactly one deferral completion,
and it decomposes as a prefix without deferral actions, then the deferral
acquisition immediately followed by the payload read, then a middle part
containing the processing (the decoded payload print), then the deferral
completion. -/
theorem spec_c1 (env : Env) (h : env.kind = ExtendedActivationKind.push) :
    (mainTrace env).filter Act.isCompleteDeferral = [Act.completeDeferral] ∧
    ∃ pre mid post,
      mainTrace env =
        pre ++ [Act.getDeferral, Act.readPayload env.pushPayload] ++ mid ++
          [Act.completeDeferral] ++ post ∧
      Act.getDeferral ∉ pre ∧
      Act.logBackgroundContent (payloadToString env.pushPayload) ∈ mid := by
  refine ⟨?_, regActs env,
    [Act.logBackgroundContent (payloadToString env.pushPayload), Act.logPressEnter],
    Act.readLine :: unregActs env, ?_, ?_, ?_⟩
  · cases hA : env.activatorSupportedAll <;> cases hC : env.activatorSupportedCom <;>
      simp [mainTrace, branchTrace, h, pushBranch, regActs, unregActs, hA, hC,
            List.filter_append, Act.isCompleteDeferral]
  · simp [mainTrace, branchTrace, h, pushBranch]
  · cases hA : env.activatorSupportedAll <;> simp [regActs, hA]
  · simp

/-- Claim C1 witness: the theorem instantiated at a concrete push
activation environment. -/
theorem spec_c1_witness :
    (mainTrace envPushW).filter Act.isCompleteDeferral = [Act.completeDeferral] ∧
    ∃ pre mid post,
      mainTrace envPushW =
        pre ++ [Act.getDeferral, Act.readPayload envPushW.pushPayload] ++ mid ++
          [Act.completeDeferral] ++ post ∧
      Act.getDeferral ∉ pre ∧
      Act.logBackgroundContent (payloadToString envPushW.pushPayload) ∈ mid :=
  spec_c1 envPushW rfl

/-- Claim C2 counterexample: in the push branch a blocking step (the
console read waiting for the user to press Enter) occurs after the
deferral has been released, so the branch does not end without further
blocking once the deferral is completed. -/
theorem spec_c2_counterexample :
    ∃ pre post,
      pushBranch [104, 105] = pre ++ Act.completeDeferral :: post ∧
      ∃ a, a ∈ post ∧ Act.isBlocking a = true := by
  refine ⟨[Act.getDeferral, Act.readPayload [104, 105],
      Act.logBackgroundContent (payloadToString [104, 105]), Act.logPressEnter],
      [Act.readLine], rfl, Act.readLine, ?_, rfl⟩
  simp

/-- Claim C2 (amended): in the push branch, after the payload is processed
the deferral is released, and exactly one further step follows before the
branch ends: a blocking console read waiting for the user to press Enter.
The console read is the only blocking step of the branch, and only the
activator unregistration follows the branch. -/
theorem spec_c2 (env : Env) (h : env.kind = ExtendedActivationKind.push) :
    (∃ pre, mainTrace env =
        pre ++ [Act.completeDeferral, Act.readLine] ++ unregActs env) ∧
    (pushBranch env.pushPayload).filter Act.isBlocking = [Act.readLine] := by
  refine ⟨⟨regActs env ++ [Act.getDeferral, Act.readPayload env.pushPayload,
      Act.logBackgroundContent (payloadToString env.pushPayload), Act.logPressEnter], ?_⟩, ?_⟩
  · simp [mainTrace, branchTrace, h, pushBranch]
  · simp [pushBranch, Act.isBlocking]

/-- Claim C2 (amended) witness: the theorem instantiated at a concrete
push activation environment. -/
theorem spec_c2_witness :
    (∃ pre, mainTrace envPushW =
        pre ++ [Act.completeDeferral, Act.readLine] ++ unregActs envPushW) ∧
    (pushBranch envPushW.pushPayload).filter Act.isBlocking = [Act.readLine] :=
  spec_c2 envPushW rfl

/-- Claim C3: if the asynchronous channel request has not completed within
the 300-second timeout, `RequestChannel` cancels the in-flight operation
and returns null, and the launch path establishes no foreground
subscription. -/
theorem spec_c3 (env : Env) (h1 : env.kind = ExtendedActivationKind.launch)
    (h2 : 300 < env.creq.completesAfter) :
    (RequestChannel env.creq).2 = none ∧
    Act.cancelChannelOperation ∈ (RequestChannel env.creq).1 ∧
    (mainTrace env).filter Act.isSubscribe = [] := by
  have hw : wait_for env.creq 300 = AsyncStatus.started := by
    rw [wait_for, if_neg (Nat.not_le.mpr h2)]
  have hw2 : wait_for env.creq 300 ≠ AsyncStatus.completed := by
    rw [hw]; intro hcon; cases hcon
  refine ⟨?_, ?_, ?_⟩
  · simp [RequestChannel, hw]
  · simp [RequestChannel, hw]
  · have hl := launchBranch_filter_isSubscribe_of_not_completed env.creq hw2
    cases hA : env.activatorSupportedAll <;> cases hC : env.activatorSupportedCom <;>
      simp [mainTrace, branchTrace, h1, regActs, unregActs, hA, hC,
            List.filter_append, hl, Act.isSubscribe]

/-- Claim C3 witness: the theorem instantiated at a concrete launch
environment whose channel request completes only after 400 seconds. -/
theorem spec_c3_witness :
    (RequestChannel envLaunchTimeoutW.creq).2 = none ∧
    Act.cancelChannelOperation ∈ (RequestChannel envLaunchTimeoutW.creq).1 ∧
    (mainTrace envLaunchTimeoutW).filter Act.isSubscribe = [] :=
  spec_c3 envLaunchTimeoutW rfl (by decide)

/-- Claim C4: if channel negotiation completes with `CompletedSuccess`
within the timeout, `RequestChannel` returns the channel carried by the
result, and the launch path subscribes the foreground handler exactly
once, on that channel. -/
theorem spec_c4 (env : Env) (h1 : env.kind = ExtendedActivationKind.launch)
    (h2 : wait_for env.creq 300 = AsyncStatus.completed)
    (h3 : env.creq.result.status = PushNotificationChannelStatus.completedSuccess) :
    (RequestChannel env.creq).2 = some env.creq.result.channel ∧
    (mainTrace env).filter Act.isSubscribe =
      [Act.subscribeForeground env.creq.result.channel] := by
  refine ⟨?_, ?_⟩
  · simp [RequestChannel, h2, RequestChannelAsync, completionActs, h3]
  · have hl := launchBranch_filter_isSubscribe_of_success env.creq h2 h3
    cases hA : env.activatorSupportedAll <;> cases hC : env.activatorSupportedCom <;>
      simp [mainTrace, branchTrace, h1, regActs, unregActs, hA, hC,
            List.filter_append, hl, Act.isSubscribe]

/-- Claim C4 witness: the theorem instantiated at a concrete launch
environment whose negotiation succeeds after 5 seconds. -/
theorem spec_c4_witness :
    (RequestChannel envLaunchSuccessW.creq).2 = some envLaunchSuccessW.creq.result.channel ∧
    (mainTrace envLaunchSuccessW).filter Act.isSubscribe =
      [Act.subscribeForeground envLaunchSuccessW.creq.result.channel] :=
  spec_c4 envLaunchSuccessW rfl (by decide) rfl

/-- Claim C5: when the channel request completes with `CompletedFailure`
or any other non-success status, the negotiator returns null and logs
exactly one failure message (the critical-failure log on
`CompletedFailure`, the other-failure log otherwise), and the caller
issues the channel request exactly once, attempting no retry. -/
theorem spec_c5 (env : Env) (h1 : env.kind = ExtendedActivationKind.launch)
    (h2 : env.creq.result.status ≠ PushNotificationChannelStatus.completedSuccess) :
    (RequestChannelAsync env.creq.progress env.creq.result).2 = none ∧
    (RequestChannelAsync env.creq.progress env.creq.result).1.filter Act.isErrorLog =
      [if env.creq.result.status = PushNotificationChannelStatus.completedFailure
        then Act.logCriticalFailure env.creq.result.extendedError
        else Act.logOtherFailure env.creq.result.extendedError] ∧
    (mainTrace env).filter Act.isCreateChannel = [Act.createChannel] := by
  have hp := progressLogs_filter_eq_nil Act.isErrorLog rfl (fun n e => rfl)
    env.creq.progress
  refine ⟨?_, ?_, ?_⟩
  · by_cases h3 : env.creq.result.status = PushNotificationChannelStatus.completedFailure <;>
      simp [RequestChannelAsync, completionActs, h2, h3]
  · by_cases h3 : env.creq.result.status = PushNotificationChannelStatus.completedFailure <;>
      simp [RequestChannelAsync, completionActs, h2, h3, List.filter_append, hp,
            Act.isErrorLog]
  · have hl := launchBranch_filter_isCreateChannel env.creq
    cases hA : env.activatorSupportedAll <;> cases hC : env.activatorSupportedCom <;>
      simp [mainTrace, branchTrace, h1, regActs, unregActs, hA, hC,
            List.filter_append, hl, Act.isCreateChannel]

/-- Claim C5 witness: the theorem instantiated at a concrete launch
environment whose negotiation completes with `CompletedFailure`. -/
theorem spec_c5_witness :
    (RequestChannelAsync envLaunchFailureW.creq.progress envLaunchFailureW.creq.result).2 = none ∧
    (RequestChannelAsync envLaunchFailureW.creq.progress envLaunchFailureW.creq.result).1.filter
        Act.isErrorLog =
      [if envLaunchFailureW.creq.result.status = PushNotificationChannelStatus.completedFailure
        then Act.logCriticalFailure envLaunchFailureW.creq.result.extendedError
        else Act.logOtherFailure envLaunchFailureW.creq.result.extendedError] ∧
    (mainTrace envLaunchFailureW).filter Act.isCreateChannel = [Act.createChannel] :=
  spec_c5 envLaunchFailureW rfl (by decide)

/-- Claim C6: for every activation kind other than Launch and Push, the
process prints the unexpected-activation message and exits without
attempting channel negotiation: no channel request is issued and no
foreground subscription is made anywhere in the trace. -/
theorem spec_c6 (env : Env) (k : Nat)
    (h : env.kind = ExtendedActivationKind.other k) :
    Act.logUnexpectedActivation ∈ mainTrace env ∧
    (mainTrace env).filter Act.isCreateChannel = [] ∧
    (mainTrace env).filter Act.isSubscribe = [] := by
  refine ⟨?_, ?_, ?_⟩ <;>
    cases hA : env.activatorSupportedAll <;> cases hC : env.activatorSupportedCom <;>
      simp [mainTrace, branchTrace, h, otherBranch, regActs, unregActs, hA, hC,
            List.filter_append, Act.isCreateChannel, Act.isSubscribe]

/-- Claim C6 witness: the theorem instantiated at a concrete environment
whose activation kind is neither Launch nor Push. -/
theorem spec_c6_witness :
    Act.logUnexpectedActivation ∈ mainTrace envOtherW ∧
    (mainTrace envOtherW).filter Act.isCreateChannel = [] ∧
    (mainTrace envOtherW).filter Act.isSubscribe = [] :=
  spec_c6 envOtherW 3 rfl

/-- Claim C7: for every payload delivered to the foreground handler, the
handler leaves the event marked handled, writes the handled flag exactly
once (with the value true), and does so only after having read the
payload. -/
theorem spec_c7 (args : PushNotificationReceivedEventArgs) :
    (foregroundHandler args).2.handled = true ∧
    (foregroundHandler args).1.filter HandlerStep.isSetHandled =
      [HandlerStep.setHandled true] ∧
    ∃ pre, (foregroundHandler args).1 = pre ++ [HandlerStep.setHandled true] ∧
      HandlerStep.getPayload args.payload ∈ pre := by
  refine ⟨rfl, ?_, [HandlerStep.getPayload args.payload,
    HandlerStep.logContent (payloadToString args.payload)], rfl, ?_⟩
  · simp [foregroundHandler, HandlerStep.isSetHandled]
  · simp

/-- Claim C8: given the fixed progress and completion sequence InProgress,
InProgressRetry with retry count 2, then CompletedSuccess carrying channel
`ch`, the negotiator logs exactly one informational in-progress message and
exactly one retry warning reporting retry count 2, and returns `ch`. -/
theorem spec_c8 (ch : PushNotificationChannel) (e : Int) :
    ((RequestChannelAsync
        [{ status := PushNotificationChannelStatus.inProgress,
           extendedError := 0, retryCount := 0 },
         { status := PushNotificationChannelStatus.inProgressRetry,
           extendedError := e, retryCount := 2 }]
        { status := PushNotificationChannelStatus.completedSuccess,
          channel := ch, extendedError := 0 }).1.filter Act.isInProgressLog =
      [Act.logInProgress]) ∧
    ((RequestChannelAsync
        [{ status := PushNotificationChannelStatus.inProgress,
           extendedError := 0, retryCount := 0 },
         { status := PushNotificationChannelStatus.inProgressRetry,
           extendedError := e, retryCount := 2 }]
        { status := PushNotificationChannelStatus.completedSuccess,
          channel := ch, extendedError := 0 }).1.filter Act.isRetryLog =
      [Act.logRetry 2 e]) ∧
    (RequestChannelAsync
        [{ status := PushNotificationChannelStatus.inProgress,
           extendedError := 0, retryCount := 0 },
         { status := PushNotificationChannelStatus.inProgressRetry,
           extendedError := e, retryCount := 2 }]
        { status := PushNotificationChannelStatus.completedSuccess,
          channel := ch, extendedError := 0 }).2 = some ch := by
  refine ⟨?_, ?_, ?_⟩ <;>
    simp [RequestChannelAsync, progressLogs, progressHandler, completionActs,
          Act.isInProgressLog, Act.isRetryLog]

/-- Claim C9: on every path, the trace is the registration actions, then
the activation-kind branch, then the unregistration actions; no register
or unregister call occurs before the branch finishes other than the
initial registration; the only unregistration ever performed is of the
ComActivator alone (performed exactly when the OS supports it, skipped
silently otherwise, exactly as registration is skipped silently when
unsupported); and the PushTrigger registration is left exactly as the
initial registration left it. -/
theorem spec_c9 (env : Env) :
    mainTrace env = (regActs env ++ branchTrace env) ++ unregActs env ∧
    (regActs env ++ branchTrace env).filter Act.isUnregister = [] ∧
    (mainTrace env).filter Act.isUnregister =
      (if env.activatorSupportedCom
        then [Act.unregisterActivator ⟨false, true⟩] else []) ∧
    (mainTrace env).filter Act.isRegister =
      (if env.activatorSupportedAll
        then [Act.registerActivator ⟨true, true⟩] else []) ∧
    (registeredAfter (mainTrace env)).pushTrigger = env.activatorSupportedAll := by
  have hbR := branchTrace_filter_isRegister env
  have hbU := branchTrace_filter_isUnregister env
  have hmem : ∀ a ∈ branchTrace env,
      Act.isRegister a = false ∧ Act.isUnregister a = false := by
    intro a ha
    constructor
    · exact Bool.eq_false_iff.mpr (List.filter_eq_nil_iff.mp hbR a ha)
    · exact Bool.eq_false_iff.mpr (List.filter_eq_nil_iff.mp hbU a ha)
  have hfold : ∀ s, (branchTrace env).foldl stepReg s = s :=
    fun s => foldl_stepReg_id (branchTrace env) s hmem
  refine ⟨?_, ?_, ?_, ?_, ?_⟩
  · simp [mainTrace]
  · cases hA : env.activatorSupportedAll <;>
      simp [regActs, hA, List.filter_append, hbU, Act.isUnregister]
  · cases hA : env.activatorSupportedAll <;> cases hC : env.activatorSupportedCom <;>
      simp [mainTrace, regActs, unregActs, hA, hC, List.filter_append, hbU,
            Act.isUnregister]
  · cases hA : env.activatorSupportedAll <;> cases hC : env.activatorSupportedCom <;>
      simp [mainTrace, regActs, unregActs, hA, hC, List.filter_append, hbR,
            Act.isRegister]
  · cases hA : env.activatorSupportedAll <;> cases hC : env.activatorSupportedCom <;>
      simp [registeredAfter, mainTrace, regActs, unregActs, hA, hC,
            List.foldl_append, hfold, stepReg]

/-- Claim C10: whenever the 300-second wait reports any outcome other than
`Completed` (timeout expiry with the operation still running, or an
operation that ended in the `Error` or `Canceled` state), `RequestChannel`
returns null, its last action is the cancellation of the in-flight
operation, and `GetResults` is never invoked. -/
theorem spec_c10 (creq : ChannelRequestEnv)
    (h : wait_for creq 300 ≠ AsyncStatus.completed) :
    (RequestChannel creq).2 = none ∧
    (∃ pre, (RequestChannel creq).1 = pre ++ [Act.cancelChannelOperation]) ∧
    Act.getChannelResults ∉ (RequestChannel creq).1 := by
  refine ⟨?_, ⟨Act.createChannel :: progressLogs creq.progress, ?_⟩, ?_⟩
  · simp [RequestChannel, h]
  · simp [RequestChannel, h]
  · simp [RequestChannel, h, getChannelResults_not_mem_progressLogs]

/-- Claim C10 witness: the theorem instantiated at a concrete channel
request whose asynchronous operation ends in the `Error` state after 5
seconds, well inside the timeout window. -/
theorem spec_c10_witness :
    (RequestChannel creqErrorW).2 = none ∧
    (∃ pre, (RequestChannel creqErrorW).1 = pre ++ [Act.cancelChannelOperation]) ∧
    Act.getChannelResults ∉ (RequestChannel creqErrorW).1 :=
  spec_c10 creqErrorW (by decide)
